import Mathlib

/-!
Verification of the AVR telnet driver (`aio_marantz_avr/avr.py`).

The development shallowly embeds the driver's core: the device state cache
(`_data` dictionary), the response parser (`_process_response`), the
await-confirmation loop with its re-entrancy guard (`_wait_for_response`,
`_wait_for_response_with_timeout`), command issuance (`_send_command`),
the public facade operations, and the typed accessors
(`_get_volume_level`, `_get_enum_data`).

Python strings are modelled as Lean `String`; the handful of string
primitives the source uses (`strip`, slicing, `startswith`, `float` on the
protocol's digit payloads) are given explicit, kernel-executable
definitions below.  The telnet transport is modelled by the list of lines
the reader will deliver plus how the stream behaves once that list is
exhausted (`StreamEnd`): it reports end-of-stream, raises a connection
error, or stays open with no further data (in which case the blocked
`readline` is cancelled by the `asyncio.wait_for` timeout wrapper, which
the source translates to `AvrTimeoutError`).
-/

namespace AvrModel

/-- Characters treated as whitespace by Python's `str.strip()` on the
ASCII alphabet of this protocol. -/
def isPySpace (c : Char) : Bool :=
  c == ' ' || c == '\t' || c == '\n' || c == '\r' || c == '\x0b' || c == '\x0c'

/-- Python `s.strip()`: remove leading and trailing whitespace. -/
def pyStrip (s : String) : String :=
  ⟨((s.data.dropWhile isPySpace).reverse.dropWhile isPySpace).reverse⟩

/-- Python `s[n:]`: drop the first `n` characters. -/
def pyDrop (s : String) (n : Nat) : String :=
  ⟨s.data.drop n⟩

/-- Python `response.startswith(name)`. -/
def pyStartswith (response name : String) : Bool :=
  name.data.isPrefixOf response.data

/-- Python `float(value)` restricted to the unsigned decimal-digit payload
strings this protocol produces (`"40"`, `"305"`, ...).  Payloads on which
`float` raises `ValueError` (and any form outside that digit fragment)
are mapped to `none`, i.e. a decode error. -/
def pyFloat? (s : String) : Option ℚ :=
  if s.data ≠ [] ∧ s.data.all Char.isDigit then
    some ((s.data.foldl (fun n c => 10 * n + (c.toNat - '0'.toNat)) 0 : ℕ) : ℚ)
  else none

/-- The `_data` dictionary: insertion-ordered association list from data
field key to optional raw payload. -/
abbrev Data := List (String × Option String)

/-- Python `self._data[name]` for the fixed keys of the cache (reads of a
missing key and a `None` value are both `none`; every access in the
source uses a key present since `_prepare_data`). -/
def dictGet : Data → String → Option String
  | [], _ => none
  | p :: t, name => if p.1 = name then p.2 else dictGet t name

/-- Python `self._data[match] = v` for a key already present: replace the
value, keep insertion order. -/
def setData : Data → String → String → Data
  | [], _, _ => []
  | p :: t, key, v => (if p.1 = key then (p.1, some v) else p) :: setData t key v

/-- `MarantzAVR.DATA_DEFS`: each query command with the response keys it
is expected to produce. -/
def DATA_DEFS : List (String × List String) :=
  [("PW?", ["PW"]), ("MU?", ["MU"]), ("MV?", ["MV", "MVMAX"]),
   ("SI?", ["SI"]), ("MS?", ["MS"])]

/-- `_prepare_data`: every declared key mapped to `None`. -/
def prepare_data : Data :=
  ((DATA_DEFS.map Prod.snd).foldl (· ++ ·) []).map (fun n => (n, (none : Option String)))

/-- Stable insertion (descending by length) used by `sortLenDesc`. -/
def insertLenDesc (x : String) : List String → List String
  | [] => [x]
  | y :: ys => if y.length ≤ x.length then x :: y :: ys else y :: insertLenDesc x ys

/-- Python `matches.sort(key=len, reverse=True)`: the stable sort of a
list of strings by descending length. -/
def sortLenDesc : List String → List String
  | [] => []
  | x :: xs => insertLenDesc x (sortLenDesc xs)

/-- The list comprehension in `_process_response`: every known key that is
a prefix of the response line, in cache key order. -/
def keyMatches (data : Data) (response : String) : List String :=
  (data.map Prod.fst).filter (fun name => pyStartswith response name)

/-- Match selection of `_process_response`: sort descending by length when
more than one key matched, then take the first. -/
def selectMatch (ms : List String) : Option String :=
  match (if ms.length > 1 then sortLenDesc ms else ms) with
  | [] => none
  | m :: _ => some m

/-- `_process_response`: find the matching key, store the stripped
remainder of the line as its raw payload, and return the key; on no
match return `None` and leave the cache unchanged. -/
def process_response (data : Data) (response : String) : Option String × Data :=
  match selectMatch (keyMatches data response) with
  | none => (none, data)
  | some m => (some m, setData data m (pyDrop (pyStrip response) m.length))

/-- Coordinator state: the `_data` cache and the `_reading` re-entrancy
guard flag of `MarantzAVR`. -/
structure AvrState where
  data : Data
  reading : Bool
deriving DecidableEq, Repr

/-- How the modelled transport behaves once the delivered lines are
exhausted: the reader reports end-of-stream, the connection raises a
`ConnectionError`, or the stream stays open with no further data (the
blocked `readline` is then cancelled by the timeout wrapper). -/
inductive StreamEnd where
  | eof
  | connError
  | stillOpen
deriving DecidableEq, Repr

/-- Termination of one await-confirmation: normal completion (pending set
emptied), `DisconnectedError`, `AvrTimeoutError` (via the
`_with_timeout` wrapper), or the guard-held early return (a normal,
errorless return that read nothing). -/
inductive WaitOutcome where
  | completed
  | disconnected
  | timedOut
  | skipped
deriving DecidableEq, Repr

/-- Errors a public operation can raise. -/
inductive AvrErr where
  | disconnected
  | timedOut
deriving DecidableEq, Repr

/-- Result of a public operation: normal return or a raised error. -/
inductive AvrResult where
  | ok
  | err (e : AvrErr)
deriving DecidableEq, Repr

/-- The read loop of `_wait_for_response`, given that the guard was free:
process delivered lines one at a time, removing matched pending keys,
until the pending set empties (completed) or the lines run out
(disconnected at end-of-stream or on `ConnectionError`; timed out if the
stream stays open and the wrapper cancels the blocked read).  Returns
the outcome, the final cache, and the lines left unread. -/
def wait_loop : List String → Data → List String → StreamEnd →
    WaitOutcome × Data × List String
  | _, data, [], .eof => (.disconnected, data, [])
  | _, data, [], .connError => (.disconnected, data, [])
  | _, data, [], .stillOpen => (.timedOut, data, [])
  | pending, data, line :: rest, e =>
    let r := process_response data line
    match r.1 with
    | some k =>
      if k ∈ pending then
        if pending.erase k = [] then (.completed, r.2, rest)
        else wait_loop (pending.erase k) r.2 rest e
      else wait_loop pending r.2 rest e
    | none => wait_loop pending r.2 rest e

/-- `_wait_for_response_with_timeout` (and `_wait_for_response` under it):
return immediately when the guard is held; otherwise set the guard, run
the read loop, and — via the `finally` block — clear the guard on every
exit path.  A `.timedOut` outcome is the wrapper's `AvrTimeoutError`. -/
def wait_for_response_with_timeout (st : AvrState) (names : List String)
    (lines : List String) (e : StreamEnd) : WaitOutcome × AvrState × List String :=
  if st.reading then (.skipped, st, lines)
  else
    let r := wait_loop names st.data lines e
    (r.1, ⟨r.2.1, false⟩, r.2.2)

/-- `_send_command`: raise `DisconnectedError` before writing anything
when the reader is at end-of-stream; otherwise write the joined parts
and the carriage-return terminator.  The second component is the list of
`write` calls performed. -/
def send_command (atEof : Bool) (parts : List String) : AvrResult × List String :=
  if atEof then (.err .disconnected, [])
  else (.ok, [parts.foldl (· ++ ·) "", "\r"])

/-- One public operation: issue the command, then await confirmation of
the given keys.  Returns (result, final state, writes, unread lines). -/
def operation (st : AvrState) (atEof : Bool) (parts : List String)
    (names : List String) (lines : List String) (e : StreamEnd) :
    AvrResult × AvrState × List String × List String :=
  match send_command atEof parts with
  | (.err er, w) => (.err er, st, w, lines)
  | (.ok, w) =>
    let r := wait_for_response_with_timeout st names lines e
    match r.1 with
    | .completed => (.ok, r.2.1, w, r.2.2)
    | .skipped => (.ok, r.2.1, w, r.2.2)
    | .disconnected => (.err .disconnected, r.2.1, w, r.2.2)
    | .timedOut => (.err .timedOut, r.2.1, w, r.2.2)

/-- `_on_off_from_bool`. -/
def on_off_from_bool (value : Bool) : String :=
  if value then "ON" else "OFF"

/-- Python `f"{level:02}"` for the `int` argument of `set_volume_level`. -/
def format02 (n : Int) : String :=
  if 0 ≤ n ∧ n < 10 then "0" ++ toString n else toString n

/-- The loop body of `refresh`: for each data definition in order, send
the query then await its keys, threading the cache and the unread lines.
Accumulates the writes performed. -/
def refresh_loop : List (String × List String) → AvrState → Bool →
    List String → StreamEnd → AvrResult × AvrState × List String × List String
  | [], st, _, lines, _ => (.ok, st, [], lines)
  | (q, names) :: defs, st, atEof, lines, e =>
    match send_command atEof [q] with
    | (.err er, _) => (.err er, st, [], lines)
    | (.ok, w) =>
      let r := wait_for_response_with_timeout st names lines e
      match r.1 with
      | .completed =>
        let rest := refresh_loop defs r.2.1 atEof r.2.2 e
        (rest.1, rest.2.1, w ++ rest.2.2.1, rest.2.2.2)
      | .skipped =>
        let rest := refresh_loop defs r.2.1 atEof r.2.2 e
        (rest.1, rest.2.1, w ++ rest.2.2.1, rest.2.2.2)
      | .disconnected => (.err .disconnected, r.2.1, w, r.2.2)
      | .timedOut => (.err .timedOut, r.2.1, w, r.2.2)

/-- `refresh`: return at once when the guard is held; otherwise run every
declared query/wait pair in order. -/
def refresh (st : AvrState) (atEof : Bool) (lines : List String)
    (e : StreamEnd) : AvrResult × AvrState × List String × List String :=
  if st.reading then (.ok, st, [], lines)
  else refresh_loop DATA_DEFS st atEof lines e

/-- `turn_on`. -/
def turn_on (st : AvrState) (atEof : Bool) (lines : List String) (e : StreamEnd) :
    AvrResult × AvrState × List String × List String :=
  operation st atEof ["PW", "ON"] ["PW"] lines e

/-- `turn_off`. -/
def turn_off (st : AvrState) (atEof : Bool) (lines : List String) (e : StreamEnd) :
    AvrResult × AvrState × List String × List String :=
  operation st atEof ["PW", "STANDBY"] ["PW"] lines e

/-- `mute_volume`. -/
def mute_volume (st : AvrState) (mute : Bool) (atEof : Bool) (lines : List String)
    (e : StreamEnd) : AvrResult × AvrState × List String × List String :=
  operation st atEof ["MU", on_off_from_bool mute] ["MU"] lines e

/-- `set_volume_level`. -/
def set_volume_level (st : AvrState) (level : Int) (atEof : Bool)
    (lines : List String) (e : StreamEnd) :
    AvrResult × AvrState × List String × List String :=
  operation st atEof ["MV" ++ format02 level] ["MV"] lines e

/-- `volume_level_up`. -/
def volume_level_up (st : AvrState) (atEof : Bool) (lines : List String)
    (e : StreamEnd) : AvrResult × AvrState × List String × List String :=
  operation st atEof ["MVUP"] ["MV"] lines e

/-- `volume_level_down`. -/
def volume_level_down (st : AvrState) (atEof : Bool) (lines : List String)
    (e : StreamEnd) : AvrResult × AvrState × List String × List String :=
  operation st atEof ["MVDOWN"] ["MV"] lines e

/-- The `Power` enum (vocabulary as declared in this repository's
`aio_marantz_avr.py`, from which the `enums` module re-exports). -/
inductive Power where
  | Off | On | Standby
deriving DecidableEq, Repr

/-- Wire token of a `Power` member. -/
def Power.toWire : Power → String
  | .Off => "OFF"
  | .On => "ON"
  | .Standby => "STANDBY"

/-- Python `Power(value)`: look the wire token up in the vocabulary;
`none` models the `ValueError` raised on an unknown token. -/
def Power.ofWire : String → Option Power
  | "OFF" => some .Off
  | "ON" => some .On
  | "STANDBY" => some .Standby
  | _ => none

/-- The `InputSource` enum vocabulary. -/
inductive InputSource where
  | Phono | CD | DVD | Bluray | TV | CblSat | MediaPlayer | Game | Tuner
  | HDRadio | SiriusXM | Pandora | InternetRadio | Server | Favorites
  | Aux1 | Aux2 | Aux3 | Aux4 | Aux5 | Aux6 | Aux7 | OnlineMusic | Bluetooth
deriving DecidableEq, Repr

/-- Wire token of an `InputSource` member. -/
def InputSource.toWire : InputSource → String
  | .Phono => "PHONO"
  | .CD => "CD"
  | .DVD => "DVD"
  | .Bluray => "BD"
  | .TV => "TV"
  | .CblSat => "SAT/CBL"
  | .MediaPlayer => "MPLAY"
  | .Game => "GAME"
  | .Tuner => "TUNER"
  | .HDRadio => "HDRADIO"
  | .SiriusXM => "SIRIUSXM"
  | .Pandora => "PANDORA"
  | .InternetRadio => "IRADIO"
  | .Server => "SERVER"
  | .Favorites => "FAVORITES"
  | .Aux1 => "AUX1"
  | .Aux2 => "AUX2"
  | .Aux3 => "AUX3"
  | .Aux4 => "AUX4"
  | .Aux5 => "AUX5"
  | .Aux6 => "AUX6"
  | .Aux7 => "AUX7"
  | .OnlineMusic => "NET"
  | .Bluetooth => "BT"

/-- Python `InputSource(value)`. -/
def InputSource.ofWire : String → Option InputSource
  | "PHONO" => some .Phono
  | "CD" => some .CD
  | "DVD" => some .DVD
  | "BD" => some .Bluray
  | "TV" => some .TV
  | "SAT/CBL" => some .CblSat
  | "MPLAY" => some .MediaPlayer
  | "GAME" => some .Game
  | "TUNER" => some .Tuner
  | "HDRADIO" => some .HDRadio
  | "SIRIUSXM" => some .SiriusXM
  | "PANDORA" => some .Pandora
  | "IRADIO" => some .InternetRadio
  | "SERVER" => some .Server
  | "FAVORITES" => some .Favorites
  | "AUX1" => some .Aux1
  | "AUX2" => some .Aux2
  | "AUX3" => some .Aux3
  | "AUX4" => some .Aux4
  | "AUX5" => some .Aux5
  | "AUX6" => some .Aux6
  | "AUX7" => some .Aux7
  | "NET" => some .OnlineMusic
  | "BT" => some .Bluetooth
  | _ => none

/-- The `SurroundMode` enum vocabulary. -/
inductive SurroundMode where
  | Movie | Music | Game | Direct | PureDirect | Stereo | Auto
  | DolbyDigital | DtsSurround | Auro3D | Auro2DSurround
  | MultiChannelStereo | Virtual | Left | Right
  | DolbySurround | DolbyAtmos | DolbyDigitalDS | DolbyDigitalNeuralX
  | DolbyDigitalPlus | DolbyDigitalPlusDS | DolbyDigitalPlusNeuralX
  | DolbyHD | DolbyHDDS | DolbyHDNeuralX | NeuralX
  | DtsEsDscrt6_1 | DtsEsMtrx6_1 | DtsDS | DtsNeuralX
  | DtsEsMtrxNeuralX | DtsEsDscrtNeuralX | Dts96_24 | Dts96EsMtrx
  | DtsHD | DtsHDMstr | DtsHDDS | DtsHDNeuralX | DtsX | DtsXMstr
  | DtsExpress | DtsES8ChDscrt | MultiChIn | MultiChInDS
  | MultiChInNeuralX | MultiChIn7_1
deriving DecidableEq, Repr

/-- Wire token of a `SurroundMode` member. -/
def SurroundMode.toWire : SurroundMode → String
  | .Movie => "MOVIE"
  | .Music => "MUSIC"
  | .Game => "GAME"
  | .Direct => "DIRECT"
  | .PureDirect => "PURE DIRECT"
  | .Stereo => "STEREO"
  | .Auto => "AUTO"
  | .DolbyDigital => "DOLBY DIGITAL"
  | .DtsSurround => "DTS SURROUND"
  | .Auro3D => "AURO3D"
  | .Auro2DSurround => "AURO2DSURR"
  | .MultiChannelStereo => "MCH STEREO"
  | .Virtual => "VIRTUAL"
  | .Left => "LEFT"
  | .Right => "RIGHT"
  | .DolbySurround => "DOLBY SURROUND"
  | .DolbyAtmos => "DOLBY ATMOS"
  | .DolbyDigitalDS => "DOLBY D+DS"
  | .DolbyDigitalNeuralX => "DOLBY D+NEURAL:X"
  | .DolbyDigitalPlus => "DOLBY D+"
  | .DolbyDigitalPlusDS => "DOLBY D+ +DS"
  | .DolbyDigitalPlusNeuralX => "DOLBY D+ +NEURAL:X"
  | .DolbyHD => "DOLBY HD"
  | .DolbyHDDS => "DOLBY HD+DS"
  | .DolbyHDNeuralX => "DOLBY HD+NEURAL:X"
  | .NeuralX => "NEURAL:X"
  | .DtsEsDscrt6_1 => "DTS ES DSCRT6.1"
  | .DtsEsMtrx6_1 => "DTS ES MTRX6.1"
  | .DtsDS => "DTS+DS"
  | .DtsNeuralX => "DTS+NEURAL:X"
  | .DtsEsMtrxNeuralX => "DTS ES MTRX+NEURAL:X"
  | .DtsEsDscrtNeuralX => "DTS ES DSCRT+NEURAL:X"
  | .Dts96_24 => "DTS96/24"
  | .Dts96EsMtrx => "DTS96 ES MTRX"
  | .DtsHD => "DTS HD"
  | .DtsHDMstr => "DTS HD MSTR"
  | .DtsHDDS => "MSDTS HD+DS"
  | .DtsHDNeuralX => "DTS HD+NEURAL:X"
  | .DtsX => "DTS:X"
  | .DtsXMstr => "DTS:X MSTR"
  | .DtsExpress => "DTS EXPRESS"
  | .DtsES8ChDscrt => "DTS ES 8CH DSCRT"
  | .MultiChIn => "MULTI CH IN"
  | .MultiChInDS => "M CH IN+DS"
  | .MultiChInNeuralX => "M CH IN+NEURAL:X"
  | .MultiChIn7_1 => "MULTI CH IN 7.1"

/-- Python `SurroundMode(value)`. -/
def SurroundMode.ofWire : String → Option SurroundMode
  | "MOVIE" => some .Movie
  | "MUSIC" => some .Music
  | "GAME" => some .Game
  | "DIRECT" => some .Direct
  | "PURE DIRECT" => some .PureDirect
  | "STEREO" => some .Stereo
  | "AUTO" => some .Auto
  | "DOLBY DIGITAL" => some .DolbyDigital
  | "DTS SURROUND" => some .DtsSurround
  | "AURO3D" => some .Auro3D
  | "AURO2DSURR" => some .Auro2DSurround
  | "MCH STEREO" => some .MultiChannelStereo
  | "VIRTUAL" => some .Virtual
  | "LEFT" => some .Left
  | "RIGHT" => some .Right
  | "DOLBY SURROUND" => some .DolbySurround
  | "DOLBY ATMOS" => some .DolbyAtmos
  | "DOLBY D+DS" => some .DolbyDigitalDS
  | "DOLBY D+NEURAL:X" => some .DolbyDigitalNeuralX
  | "DOLBY D+" => some .DolbyDigitalPlus
  | "DOLBY D+ +DS" => some .DolbyDigitalPlusDS
  | "DOLBY D+ +NEURAL:X" => some .DolbyDigitalPlusNeuralX
  | "DOLBY HD" => some .DolbyHD
  | "DOLBY HD+DS" => some .DolbyHDDS
  | "DOLBY HD+NEURAL:X" => some .DolbyHDNeuralX
  | "NEURAL:X" => some .NeuralX
  | "DTS ES DSCRT6.1" => some .DtsEsDscrt6_1
  | "DTS ES MTRX6.1" => some .DtsEsMtrx6_1
  | "DTS+DS" => some .DtsDS
  | "DTS+NEURAL:X" => some .DtsNeuralX
  | "DTS ES MTRX+NEURAL:X" => some .DtsEsMtrxNeuralX
  | "DTS ES DSCRT+NEURAL:X" => some .DtsEsDscrtNeuralX
  | "DTS96/24" => some .Dts96_24
  | "DTS96 ES MTRX" => some .Dts96EsMtrx
  | "DTS HD" => some .DtsHD
  | "DTS HD MSTR" => some .DtsHDMstr
  | "MSDTS HD+DS" => some .DtsHDDS
  | "DTS HD+NEURAL:X" => some .DtsHDNeuralX
  | "DTS:X" => some .DtsX
  | "DTS:X MSTR" => some .DtsXMstr
  | "DTS EXPRESS" => some .DtsExpress
  | "DTS ES 8CH DSCRT" => some .DtsES8ChDscrt
  | "MULTI CH IN" => some .MultiChIn
  | "M CH IN+DS" => some .MultiChInDS
  | "M CH IN+NEURAL:X" => some .MultiChInNeuralX
  | "MULTI CH IN 7.1" => some .MultiChIn7_1
  | _ => none

/-- `select_source`. -/
def select_source (st : AvrState) (src : InputSource) (atEof : Bool)
    (lines : List String) (e : StreamEnd) :
    AvrResult × AvrState × List String × List String :=
  operation st atEof ["SI", src.toWire] ["SI"] lines e

/-- `select_sound_mode`. -/
def select_sound_mode (st : AvrState) (mode : SurroundMode) (atEof : Bool)
    (lines : List String) (e : StreamEnd) :
    AvrResult × AvrState × List String × List String :=
  operation st atEof ["MS", mode.toWire] ["MS"] lines e

/-- Result of a typed accessor: the field was never populated, decoding
succeeded, or decoding raised (`ValueError`). -/
inductive DecodeResult (α : Type) where
  | unknown
  | ok (a : α)
  | fail
deriving DecidableEq, Repr

/-- `_get_enum_data`: an absent payload is unknown; otherwise look the
wire token up (`enum_type(value)`), raising on an unrecognized token. -/
def get_enum_data {α : Type} (data : Data) (name : String)
    (ofWire : String → Option α) : DecodeResult α :=
  match dictGet data name with
  | none => .unknown
  | some v =>
    match ofWire v with
    | none => .fail
    | some a => .ok a

/-- `_get_volume_level`: absent payload is unknown; otherwise strip the
payload, parse it as a number, and divide by 10 exactly when the
stripped payload has 3 characters. -/
def get_volume_level (data : Data) (name : String) : DecodeResult ℚ :=
  match dictGet data name with
  | none => .unknown
  | some v =>
    let v := pyStrip v
    match pyFloat? v with
    | none => .fail
    | some level => .ok (if v.length = 3 then level / 10 else level)

/-- The `power` property. -/
def power (st : AvrState) : DecodeResult Power :=
  get_enum_data st.data "PW" Power.ofWire

/-- The `source` property. -/
def source (st : AvrState) : DecodeResult InputSource :=
  get_enum_data st.data "SI" InputSource.ofWire

/-- The `sound_mode` property. -/
def sound_mode (st : AvrState) : DecodeResult SurroundMode :=
  get_enum_data st.data "MS" SurroundMode.ofWire

/-- The `volume_level` property. -/
def volume_level (st : AvrState) : DecodeResult ℚ :=
  get_volume_level st.data "MV"

/-- The `max_volume_level` property. -/
def max_volume_level (st : AvrState) : DecodeResult ℚ :=
  get_volume_level st.data "MVMAX"

/-- Spec-side description of the await-confirmation bookkeeping (§4.3 of
the spec): process every delivered line with the parser, removing each
matched key from the pending-wait set, and report the final pending set
and cache.  Used to compare the source's early-returning loop against
the spec's "the wait is satisfied exactly when the pending set becomes
empty". -/
def spec_await_run : List String → Data → List String → List String × Data
  | pending, data, [] => (pending, data)
  | pending, data, l :: rest =>
    let r := process_response data l
    match r.1 with
    | some k => spec_await_run (if k ∈ pending then pending.erase k else pending) r.2 rest
    | none => spec_await_run pending r.2 rest

/-- Run the response parser over a whole list of lines, keeping only the
cache. -/
def spec_process_all (data : Data) (lines : List String) : Data :=
  lines.foldl (fun d l => (process_response d l).2) data

section Lemmas

lemma wait_loop_ne_skipped (lines : List String) : ∀ pending data e,
    (wait_loop pending data lines e).1 ≠ WaitOutcome.skipped := by
  induction lines with
  | nil => intro pending data e; cases e <;> simp [wait_loop]
  | cons l rest ih =>
    intro pending data e
    simp only [wait_loop]
    split
    · split
      · split
        · simp
        · apply ih
      · apply ih
    · apply ih

lemma wait_loop_closed_end (lines : List String) : ∀ pending data e,
    e = StreamEnd.eof ∨ e = StreamEnd.connError →
    (wait_loop pending data lines e).1 = WaitOutcome.completed ∨
      (wait_loop pending data lines e).1 = WaitOutcome.disconnected := by
  induction lines with
  | nil =>
    intro pending data e he
    rcases he with h | h <;> subst h <;> simp [wait_loop]
  | cons l rest ih =>
    intro pending data e he
    simp only [wait_loop]
    split
    · split
      · split
        · simp
        · exact ih _ _ _ he
      · exact ih _ _ _ he
    · exact ih _ _ _ he

lemma spec_await_run_nil_pending (lines : List String) : ∀ d,
    (spec_await_run [] d lines).1 = [] := by
  induction lines with
  | nil => intro d; simp [spec_await_run]
  | cons l rest ih =>
    intro d
    simp only [spec_await_run]
    split
    · simpa using ih _
    · exact ih _

lemma mem_insertLenDesc {a x : String} : ∀ {l : List String},
    a ∈ insertLenDesc x l ↔ a = x ∨ a ∈ l := by
  intro l
  induction l with
  | nil => simp [insertLenDesc]
  | cons y ys ih =>
    simp only [insertLenDesc]
    split
    · simp [List.mem_cons]
    · simp only [List.mem_cons, ih]
      tauto

lemma sortLenDesc_spec : ∀ l : List String, l ≠ [] →
    ∃ m t, sortLenDesc l = m :: t ∧ m ∈ l ∧ ∀ a ∈ l, a.length ≤ m.length := by
  intro l
  induction l with
  | nil => intro h; exact absurd rfl h
  | cons x xs ih =>
    intro _
    cases hxs : xs with
    | nil =>
      exact ⟨x, [], by simp [sortLenDesc, insertLenDesc], by simp, by simp⟩
    | cons y ys =>
      subst hxs
      obtain ⟨m, t, hsort, hmem, hmax⟩ := ih (by simp)
      by_cases hlen : m.length ≤ x.length
      · refine ⟨x, m :: t, ?_, by simp, ?_⟩
        · rw [sortLenDesc, hsort, insertLenDesc, if_pos hlen]
        · intro a ha
          rcases List.mem_cons.mp ha with h | h
          · subst h; exact le_refl _
          · exact le_trans (hmax a h) hlen
      · refine ⟨m, insertLenDesc x t, ?_, List.mem_cons_of_mem x hmem, ?_⟩
        · rw [sortLenDesc, hsort, insertLenDesc, if_neg hlen]
        · intro a ha
          rcases List.mem_cons.mp ha with h | h
          · subst h; exact le_of_not_le hlen
          · exact hmax a h

lemma selectMatch_spec : ∀ ms : List String, ms ≠ [] →
    ∃ m, selectMatch ms = some m ∧ m ∈ ms ∧ ∀ n ∈ ms, n.length ≤ m.length := by
  intro ms hms
  by_cases hlen : ms.length > 1
  · obtain ⟨m, t, hsort, hmem, hmax⟩ := sortLenDesc_spec ms hms
    refine ⟨m, ?_, hmem, hmax⟩
    simp only [selectMatch]
    rw [if_pos hlen, hsort]
  · cases ms with
    | nil => exact absurd rfl hms
    | cons m rest =>
      cases rest with
      | nil => exact ⟨m, by simp [selectMatch], by simp, by simp⟩
      | cons m1 r2 =>
        exact absurd (by simp only [List.length_cons]; omega) hlen

lemma dictGet_setData_ne {key k : String} (v : String) (h : k ≠ key) :
    ∀ d : Data, dictGet (setData d key v) k = dictGet d k := by
  intro d
  induction d with
  | nil => rfl
  | cons p t ih =>
    simp only [setData]
    by_cases hp : p.1 = key
    · rw [if_pos hp]
      have hpk : ¬ p.1 = k := by rw [hp]; exact fun hh => h hh.symm
      simp only [dictGet]
      rw [if_neg hpk, if_neg hpk, ih]
    · rw [if_neg hp]
      simp only [dictGet]
      by_cases hpk : p.1 = k
      · rw [if_pos hpk, if_pos hpk]
      · rw [if_neg hpk, if_neg hpk, ih]

lemma dictGet_setData_self {key : String} (v : String) :
    ∀ d : Data, key ∈ d.map Prod.fst → dictGet (setData d key v) key = some v := by
  intro d
  induction d with
  | nil => intro h; exact absurd h (by simp)
  | cons p t ih =>
    intro hmem
    simp only [setData]
    by_cases hp : p.1 = key
    · rw [if_pos hp]
      simp only [dictGet]
      rw [if_pos hp]
    · rw [if_neg hp]
      simp only [dictGet]
      rw [if_neg hp]
      apply ih
      rw [List.map_cons] at hmem
      rcases List.mem_cons.mp hmem with h | h
      · exact absurd h.symm hp
      · exact h

lemma setData_not_mem {key : String} (v : String) :
    ∀ d : Data, key ∉ d.map Prod.fst → setData d key v = d := by
  intro d
  induction d with
  | nil => intro _; rfl
  | cons p t ih =>
    intro hmem
    rw [List.map_cons] at hmem
    have hp : ¬ p.1 = key := fun hh => hmem (by rw [hh]; exact List.mem_cons_self _ _)
    simp only [setData]
    rw [if_neg hp, ih (fun hh => hmem (List.mem_cons_of_mem _ hh))]

lemma dictGet_setData_cases (d : Data) (key v k : String) :
    dictGet (setData d key v) k = dictGet d k ∨ dictGet (setData d key v) k = some v := by
  by_cases h : k = key
  · subst h
    by_cases hm : k ∈ d.map Prod.fst
    · exact Or.inr (dictGet_setData_self v d hm)
    · exact Or.inl (by rw [setData_not_mem v d hm])
  · exact Or.inl (dictGet_setData_ne v h d)

lemma keyMatches_mem_keys {d : Data} {resp m : String}
    (h : m ∈ keyMatches d resp) : m ∈ d.map Prod.fst :=
  (List.mem_filter.mp h).1

lemma process_response_no_match (d : Data) (resp : String)
    (h : keyMatches d resp = []) : process_response d resp = (none, d) := by
  simp [process_response, h, selectMatch]

lemma process_response_match (d : Data) (resp : String) (h : keyMatches d resp ≠ []) :
    ∃ m, process_response d resp = (some m, setData d m (pyDrop (pyStrip resp) m.length))
      ∧ m ∈ keyMatches d resp ∧ ∀ n ∈ keyMatches d resp, n.length ≤ m.length := by
  obtain ⟨m, hsel, hmem, hmax⟩ := selectMatch_spec _ h
  exact ⟨m, by simp [process_response, hsel], hmem, hmax⟩

lemma process_response_fst {d : Data} {resp k : String}
    (h : (process_response d resp).1 = some k) :
    process_response d resp = (some k, setData d k (pyDrop (pyStrip resp) k.length))
      ∧ k ∈ keyMatches d resp := by
  by_cases hm : keyMatches d resp = []
  · rw [process_response_no_match d resp hm] at h
    simp at h
  · obtain ⟨m, heq, hmem, _⟩ := process_response_match d resp hm
    rw [heq] at h
    have hk : m = k := by simpa using h
    subst hk
    exact ⟨heq, hmem⟩

lemma wait_completed_iff (lines : List String) : ∀ pending data e, pending ≠ [] →
    ((wait_loop pending data lines e).1 = WaitOutcome.completed ↔
      (spec_await_run pending data lines).1 = []) := by
  induction lines with
  | nil =>
    intro pending data e hne
    cases e <;> simp [wait_loop, spec_await_run, hne]
  | cons l rest ih =>
    intro pending data e hne
    simp only [wait_loop, spec_await_run]
    cases hm : (process_response data l).1 with
    | none =>
      simp only [hm]
      exact ih _ _ _ hne
    | some k =>
      simp only [hm]
      by_cases hmem : k ∈ pending
      · rw [if_pos hmem, if_pos hmem]
        by_cases her : pending.erase k = []
        · rw [if_pos her, her]
          simp [spec_await_run_nil_pending]
        · rw [if_neg her]
          exact ih _ _ _ her
      · rw [if_neg hmem, if_neg hmem]
        exact ih _ _ _ hne

lemma process_response_snd_none {d : Data} {l : String}
    (h : (process_response d l).1 = none) : (process_response d l).2 = d := by
  cases hs : selectMatch (keyMatches d l) with
  | none => simp [process_response, hs]
  | some m => simp [process_response, hs] at h

lemma process_response_populated {d : Data} {k : String} (l : String)
    (h : dictGet d k ≠ none) : dictGet (process_response d l).2 k ≠ none := by
  cases hm : (process_response d l).1 with
  | none => rw [process_response_snd_none hm]; exact h
  | some m =>
    obtain ⟨heq, _⟩ := process_response_fst hm
    rw [heq]
    rcases dictGet_setData_cases d m (pyDrop (pyStrip l) m.length) k with hc | hc
    · rw [hc]; exact h
    · rw [hc]; simp

lemma spec_process_all_nil (d : Data) : spec_process_all d [] = d := rfl

lemma spec_process_all_cons (d : Data) (l : String) (rest : List String) :
    spec_process_all d (l :: rest) = spec_process_all (process_response d l).2 rest := rfl

lemma spec_process_all_append (d : Data) (a b : List String) :
    spec_process_all d (a ++ b) = spec_process_all (spec_process_all d a) b := by
  simp [spec_process_all, List.foldl_append]

lemma spec_process_all_populated (lines : List String) : ∀ d k, dictGet d k ≠ none →
    dictGet (spec_process_all d lines) k ≠ none := by
  induction lines with
  | nil => intro d k h; rw [spec_process_all_nil]; exact h
  | cons l rest ih =>
    intro d k h
    rw [spec_process_all_cons]
    exact ih _ _ (process_response_populated l h)

lemma wait_loop_consumed (lines : List String) : ∀ pending data e,
    ∃ c, lines = c ++ (wait_loop pending data lines e).2.2
      ∧ (wait_loop pending data lines e).2.1 = spec_process_all data c := by
  induction lines with
  | nil =>
    intro pending data e
    refine ⟨[], ?_, ?_⟩ <;> cases e <;> simp [wait_loop, spec_process_all_nil]
  | cons l rest ih =>
    intro pending data e
    simp only [wait_loop]
    cases hm : (process_response data l).1 with
    | some k =>
      simp only [hm]
      by_cases hmem : k ∈ pending
      · rw [if_pos hmem]
        by_cases her : pending.erase k = []
        · rw [if_pos her]
          exact ⟨[l], by simp, by rw [spec_process_all_cons, spec_process_all_nil]⟩
        · rw [if_neg her]
          obtain ⟨c, hc1, hc2⟩ := ih (pending.erase k) (process_response data l).2 e
          exact ⟨l :: c, by rw [List.cons_append, ← hc1],
            by rw [spec_process_all_cons]; exact hc2⟩
      · rw [if_neg hmem]
        obtain ⟨c, hc1, hc2⟩ := ih pending (process_response data l).2 e
        exact ⟨l :: c, by rw [List.cons_append, ← hc1],
          by rw [spec_process_all_cons]; exact hc2⟩
    | none =>
      simp only [hm]
      obtain ⟨c, hc1, hc2⟩ := ih pending (process_response data l).2 e
      exact ⟨l :: c, by rw [List.cons_append, ← hc1],
        by rw [spec_process_all_cons]; exact hc2⟩

lemma wait_loop_timedOut_rest (lines : List String) : ∀ pending data e,
    (wait_loop pending data lines e).1 = WaitOutcome.timedOut →
    (wait_loop pending data lines e).2.2 = [] := by
  induction lines with
  | nil => intro pending data e _; cases e <;> simp [wait_loop]
  | cons l rest ih =>
    intro pending data e h
    simp only [wait_loop] at h ⊢
    cases hm : (process_response data l).1 with
    | some k =>
      simp only [hm] at h ⊢
      by_cases hmem : k ∈ pending
      · rw [if_pos hmem] at h ⊢
        by_cases her : pending.erase k = []
        · rw [if_pos her] at h
          simp at h
        · rw [if_neg her] at h ⊢
          exact ih _ _ _ h
      · rw [if_neg hmem] at h ⊢
        exact ih _ _ _ h
    | none =>
      simp only [hm] at h ⊢
      exact ih _ _ _ h

lemma refresh_loop_timedOut (defs : List (String × List String)) :
    ∀ st atEof lines e,
      (refresh_loop defs st atEof lines e).1 = AvrResult.err AvrErr.timedOut →
      (refresh_loop defs st atEof lines e).2.1.data = spec_process_all st.data lines := by
  induction defs with
  | nil => intro st atEof lines e h; simp [refresh_loop] at h
  | cons df dfs ih =>
    intro st atEof lines e h
    obtain ⟨q, names⟩ := df
    by_cases hEof : atEof
    · simp [refresh_loop, send_command, hEof] at h
    · have hsend : send_command atEof [q]
          = (AvrResult.ok, [List.foldl (· ++ ·) "" [q], "\r"]) := by
        simp [send_command, hEof]
      rw [refresh_loop, hsend] at h ⊢
      by_cases hrd : st.reading
      · rw [wait_for_response_with_timeout, if_pos hrd] at h ⊢
        dsimp only at h ⊢
        exact ih st atEof lines e h
      · rw [wait_for_response_with_timeout, if_neg hrd] at h ⊢
        dsimp only at h ⊢
        cases hw : (wait_loop names st.data lines e).1 with
        | completed =>
          rw [hw] at h
          dsimp only at h ⊢
          obtain ⟨c, hc1, hc2⟩ := wait_loop_consumed lines names st.data e
          have hih := ih ⟨(wait_loop names st.data lines e).2.1, false⟩ atEof
            (wait_loop names st.data lines e).2.2 e h
          dsimp only at hih
          rw [hih]
          conv_rhs => rw [hc1, spec_process_all_append, ← hc2]
        | skipped =>
          exact absurd hw (wait_loop_ne_skipped lines names st.data e)
        | disconnected =>
          rw [hw] at h
          simp at h
        | timedOut =>
          dsimp only
          obtain ⟨c, hc1, hc2⟩ := wait_loop_consumed lines names st.data e
          rw [wait_loop_timedOut_rest lines names st.data e hw, List.append_nil] at hc1
          rw [← hc1] at hc2
          exact hc2

end Lemmas

/-- Claim C3: invoking an await-confirmation while a wait is already
active (the `_reading` guard is set) returns immediately: no line is
read, the cache and the guard are unchanged, and no error is raised
(the outcome is the errorless `skipped`). -/
theorem c3_wait_skipped_when_reading (st : AvrState) (names lines : List String)
    (e : StreamEnd) (h : st.reading = true) :
    wait_for_response_with_timeout st names lines e = (WaitOutcome.skipped, st, lines) := by
  simp [wait_for_response_with_timeout, h]

/-- Claim C3 witness. -/
theorem c3_wait_skipped_when_reading_witness :
    wait_for_response_with_timeout ⟨prepare_data, true⟩ ["PW"] ["PWON\r"] StreamEnd.stillOpen
      = (WaitOutcome.skipped, ⟨prepare_data, true⟩, ["PWON\r"]) :=
  c3_wait_skipped_when_reading ⟨prepare_data, true⟩ ["PW"] ["PWON\r"] StreamEnd.stillOpen rfl

/-- Claim C9: when the guard flag is set, `refresh` returns immediately
before its query loop: no query command is written, the result is a
normal return, and the state (cache included) is unchanged. -/
theorem c9_refresh_skipped_when_reading (st : AvrState) (atEof : Bool)
    (lines : List String) (e : StreamEnd) (h : st.reading = true) :
    refresh st atEof lines e = (AvrResult.ok, st, [], lines) := by
  simp [refresh, h]

/-- Claim C9 witness. -/
theorem c9_refresh_skipped_when_reading_witness :
    refresh ⟨prepare_data, true⟩ false ["PWON\r"] StreamEnd.stillOpen
      = (AvrResult.ok, ⟨prepare_data, true⟩, [], ["PWON\r"]) :=
  c9_refresh_skipped_when_reading ⟨prepare_data, true⟩ false ["PWON\r"] StreamEnd.stillOpen rfl

/-- Claim C4: a wait that acquired the guard (it started with the guard
free) leaves the guard clear on every termination path — completion,
disconnection, or the timeout wrapper's abort — and its pending set is
local to the call, so a subsequent wait is never skipped by the guard. -/
theorem c4_guard_released (st : AvrState) (names lines names2 lines2 : List String)
    (e e2 : StreamEnd) (h : st.reading = false) :
    (wait_for_response_with_timeout st names lines e).2.1.reading = false
    ∧ (wait_for_response_with_timeout
        (wait_for_response_with_timeout st names lines e).2.1 names2 lines2 e2).1
        ≠ WaitOutcome.skipped := by
  have h1 : (wait_for_response_with_timeout st names lines e).2.1.reading = false := by
    simp [wait_for_response_with_timeout, h]
  refine ⟨h1, ?_⟩
  rw [wait_for_response_with_timeout, if_neg (by simp [h1])]
  exact wait_loop_ne_skipped _ _ _ _

/-- Claim C4 witness: a wait that times out (stream open, no lines)
releases the guard and a following wait proceeds. -/
theorem c4_guard_released_witness :
    (wait_for_response_with_timeout ⟨prepare_data, false⟩ ["PW"] [] StreamEnd.stillOpen).2.1.reading
      = false
    ∧ (wait_for_response_with_timeout
        (wait_for_response_with_timeout ⟨prepare_data, false⟩ ["PW"] [] StreamEnd.stillOpen).2.1
        ["MU"] ["MUON\r"] StreamEnd.stillOpen).1 ≠ WaitOutcome.skipped :=
  c4_guard_released ⟨prepare_data, false⟩ ["PW"] [] ["MU"] ["MUON\r"]
    StreamEnd.stillOpen StreamEnd.stillOpen rfl

/-- Claim C7: the volume accessor decodes a payload whose stripped form
has 2 characters as a whole-unit level, one with 3 characters as the
parsed number divided by 10, and an absent payload as unknown. -/
theorem c7_volume_decoding (data : Data) (name v : String) (q : ℚ)
    (hv : dictGet data name = some v) (hq : pyFloat? (pyStrip v) = some q) :
    ((pyStrip v).length = 2 → get_volume_level data name = DecodeResult.ok q)
    ∧ ((pyStrip v).length = 3 → get_volume_level data name = DecodeResult.ok (q / 10))
    ∧ (∀ d n, dictGet d n = none → get_volume_level d n = DecodeResult.unknown) := by
  refine ⟨?_, ?_, ?_⟩
  · intro h2
    simp [get_volume_level, hv, hq, h2]
  · intro h3
    simp [get_volume_level, hv, hq, h3]
  · intro d n hn
    simp [get_volume_level, hn]

/-- Claim C7 witness: payload `"305"` decodes to 30.5, payload `"30"` to
30.0, and an untouched field is unknown. -/
theorem c7_volume_decoding_witness :
    (((pyStrip "305").length = 2 →
        get_volume_level (setData prepare_data "MV" "305") "MV" = DecodeResult.ok 305)
      ∧ ((pyStrip "305").length = 3 →
        get_volume_level (setData prepare_data "MV" "305") "MV" = DecodeResult.ok (305 / 10))
      ∧ (∀ d n, dictGet d n = none → get_volume_level d n = DecodeResult.unknown))
    ∧ get_volume_level (setData prepare_data "MV" "30") "MV" = DecodeResult.ok 30
    ∧ get_volume_level prepare_data "MV" = DecodeResult.unknown :=
  ⟨c7_volume_decoding (setData prepare_data "MV" "305") "MV" "305" 305
      (by decide) (by decide),
   (c7_volume_decoding (setData prepare_data "MV" "30") "MV" "30" 30
      (by decide) (by decide)).1 (by decide),
   (c7_volume_decoding (setData prepare_data "MV" "0") "MV" "0" 0
      (by decide) (by decide)).2.2 prepare_data "MV" (by decide)⟩

/-- Claim C10: a present volume payload whose stripped length is not 3 is
returned as the plain parsed number with no scaling; only stripped
length exactly 3 triggers the division by 10. -/
theorem c10_volume_odd_lengths (data : Data) (name v : String) (q : ℚ)
    (hv : dictGet data name = some v) (h3 : (pyStrip v).length ≠ 3)
    (hq : pyFloat? (pyStrip v) = some q) :
    get_volume_level data name = DecodeResult.ok q := by
  simp [get_volume_level, hv, hq, h3]

/-- Claim C10 witness: payloads `"5"` and `"1005"` are accepted and
returned unscaled. -/
theorem c10_volume_odd_lengths_witness :
    get_volume_level (setData prepare_data "MV" "5") "MV" = DecodeResult.ok 5
    ∧ get_volume_level (setData prepare_data "MV" "1005") "MV" = DecodeResult.ok 1005 :=
  ⟨c10_volume_odd_lengths (setData prepare_data "MV" "5") "MV" "5" 5
      (by decide) (by decide) (by decide),
   c10_volume_odd_lengths (setData prepare_data "MV" "1005") "MV" "1005" 1005
      (by decide) (by decide) (by decide)⟩

/-- Claim C1: an await-confirmation started with a non-empty expected-key
list, against a guard-free state, completes exactly when processing the
delivered lines drives the pending set (seeded with those keys) to
empty; a line matching a key in the pending set removes it (returning at
once if the set empties); a line matching a known key outside the
pending set updates that key's cache entry with the line's payload but
removes nothing and never completes the wait at that step. -/
theorem c1_pending_set_protocol (names : List String) (data : Data) (lines : List String)
    (pending pending2 : List String) (d d2 : Data) (l l2 : String)
    (rest rest2 : List String) (e e2 : StreamEnd) (k k2 : String)
    (hne : names ≠ [])
    (hk : (process_response d l).1 = some k) (hout : k ∉ pending)
    (hk2 : (process_response d2 l2).1 = some k2) (hin : k2 ∈ pending2) :
    ((wait_for_response_with_timeout ⟨data, false⟩ names lines e).1 = WaitOutcome.completed
      ↔ (spec_await_run names data lines).1 = [])
    ∧ wait_loop pending d (l :: rest) e = wait_loop pending (process_response d l).2 rest e
    ∧ dictGet (process_response d l).2 k = some (pyDrop (pyStrip l) k.length)
    ∧ (pending2.erase k2 = [] →
        wait_loop pending2 d2 (l2 :: rest2) e2
          = (WaitOutcome.completed, (process_response d2 l2).2, rest2))
    ∧ (pending2.erase k2 ≠ [] →
        wait_loop pending2 d2 (l2 :: rest2) e2
          = wait_loop (pending2.erase k2) (process_response d2 l2).2 rest2 e2) := by
  refine ⟨?_, ?_, ?_, ?_, ?_⟩
  · rw [wait_for_response_with_timeout, if_neg (by simp)]
    exact wait_completed_iff lines names data e hne
  · simp only [wait_loop, hk]
    rw [if_neg hout]
  · obtain ⟨heq, hmem⟩ := process_response_fst hk
    rw [heq]
    exact dictGet_setData_self _ _ (keyMatches_mem_keys hmem)
  · intro her
    simp only [wait_loop, hk2]
    rw [if_pos hin, if_pos her]
  · intro her
    simp only [wait_loop, hk2]
    rw [if_pos hin, if_neg her]

/-- Claim C1 witness: a one-key wait completes on its matching line; a
line for a key outside the pending set (`PW` while waiting for `MU`)
updates the cache without affecting the wait. -/
theorem c1_pending_set_protocol_witness :
    (((wait_for_response_with_timeout ⟨prepare_data, false⟩ ["PW"] ["PWON\r"]
          StreamEnd.stillOpen).1 = WaitOutcome.completed
        ↔ (spec_await_run ["PW"] prepare_data ["PWON\r"]).1 = []))
    ∧ wait_loop ["MU"] prepare_data ["PWON\r"] StreamEnd.stillOpen
        = wait_loop ["MU"] (process_response prepare_data "PWON\r").2 [] StreamEnd.stillOpen
    ∧ dictGet (process_response prepare_data "PWON\r").2 "PW"
        = some (pyDrop (pyStrip "PWON\r") "PW".length)
    ∧ (List.erase ["PW"] "PW" = [] →
        wait_loop ["PW"] prepare_data ["PWON\r"] StreamEnd.stillOpen
          = (WaitOutcome.completed, (process_response prepare_data "PWON\r").2, []))
    ∧ (List.erase ["PW"] "PW" ≠ [] →
        wait_loop ["PW"] prepare_data ["PWON\r"] StreamEnd.stillOpen
          = wait_loop (List.erase ["PW"] "PW") (process_response prepare_data "PWON\r").2 []
              StreamEnd.stillOpen) :=
  c1_pending_set_protocol ["PW"] prepare_data ["PWON\r"] ["MU"] ["PW"]
    prepare_data prepare_data "PWON\r" "PWON\r" [] [] StreamEnd.stillOpen
    StreamEnd.stillOpen "PW" "PW" (by decide) (by decide) (by decide) (by decide) (by decide)

/-- Claim C2: the parser collects every known key that is a prefix of the
line; with no match it returns `None` and leaves the cache unchanged;
otherwise it returns a matching key of maximal length (in particular the
longest when several keys match), stores the stripped remainder of the
line as that key's raw payload, and leaves every other key's entry
unchanged. -/
theorem c2_parser_longest_key (data : Data) (resp : String) :
    (keyMatches data resp = [] → process_response data resp = (none, data))
    ∧ (keyMatches data resp ≠ [] →
        ∃ m, (process_response data resp).1 = some m
          ∧ m ∈ keyMatches data resp
          ∧ (∀ n ∈ keyMatches data resp, n.length ≤ m.length)
          ∧ (process_response data resp).2 = setData data m (pyDrop (pyStrip resp) m.length)
          ∧ ∀ k, k ≠ m → dictGet (process_response data resp).2 k = dictGet data k) := by
  refine ⟨process_response_no_match data resp, ?_⟩
  intro h
  obtain ⟨m, heq, hmem, hmax⟩ := process_response_match data resp h
  refine ⟨m, by rw [heq], hmem, hmax, by rw [heq], ?_⟩
  intro k hk
  rw [heq]
  exact dictGet_setData_ne _ hk _

/-- Claim C2 witness: on `"MVMAX 80\r"` both `MV` and `MVMAX` match and
the longer key `MVMAX` wins; a line matching no key is ignored. -/
theorem c2_parser_longest_key_witness :
    ((keyMatches prepare_data "MVMAX 80\r" = [] →
        process_response prepare_data "MVMAX 80\r" = (none, prepare_data))
      ∧ (keyMatches prepare_data "MVMAX 80\r" ≠ [] →
          ∃ m, (process_response prepare_data "MVMAX 80\r").1 = some m
            ∧ m ∈ keyMatches prepare_data "MVMAX 80\r"
            ∧ (∀ n ∈ keyMatches prepare_data "MVMAX 80\r", n.length ≤ m.length)
            ∧ (process_response prepare_data "MVMAX 80\r").2
                = setData prepare_data m (pyDrop (pyStrip "MVMAX 80\r") m.length)
            ∧ ∀ k, k ≠ m → dictGet (process_response prepare_data "MVMAX 80\r").2 k
                = dictGet prepare_data k))
    ∧ (process_response prepare_data "MVMAX 80\r").1 = some "MVMAX"
    ∧ process_response prepare_data "XYZ\r" = (none, prepare_data) :=
  ⟨c2_parser_longest_key prepare_data "MVMAX 80\r", by decide,
   (c2_parser_longest_key prepare_data "XYZ\r").1 (by decide)⟩

/-- Claim C8: receiving a line always succeeds — whatever the payload,
the parser caches the raw token for the matched key — while decoding is
lazy: accessing the typed property of a power, source, or surround-mode
payload whose token is outside the vocabulary raises (decode failure),
and only then. -/
theorem c8_enum_decode_lazy (d : Data) (resp k : String)
    (dpw dsi dms : Data) (tpw tsi tms : String)
    (hk : (process_response d resp).1 = some k)
    (h1 : dictGet dpw "PW" = some tpw) (h2 : Power.ofWire tpw = none)
    (h3 : dictGet dsi "SI" = some tsi) (h4 : InputSource.ofWire tsi = none)
    (h5 : dictGet dms "MS" = some tms) (h6 : SurroundMode.ofWire tms = none) :
    dictGet (process_response d resp).2 k = some (pyDrop (pyStrip resp) k.length)
    ∧ power ⟨dpw, false⟩ = DecodeResult.fail
    ∧ source ⟨dsi, false⟩ = DecodeResult.fail
    ∧ sound_mode ⟨dms, false⟩ = DecodeResult.fail := by
  obtain ⟨heq, hmem⟩ := process_response_fst hk
  refine ⟨?_, ?_, ?_, ?_⟩
  · rw [heq]
    exact dictGet_setData_self _ _ (keyMatches_mem_keys hmem)
  · simp [power, get_enum_data, h1, h2]
  · simp [source, get_enum_data, h3, h4]
  · simp [sound_mode, get_enum_data, h5, h6]

/-- Claim C8 witness: the line `"PWGARBAGE\r"` is received and cached
without error, and each enum accessor fails on an out-of-vocabulary
token. -/
theorem c8_enum_decode_lazy_witness :
    dictGet (process_response prepare_data "PWGARBAGE\r").2 "PW"
        = some (pyDrop (pyStrip "PWGARBAGE\r") "PW".length)
    ∧ power ⟨setData prepare_data "PW" "GARBAGE", false⟩ = DecodeResult.fail
    ∧ source ⟨setData prepare_data "SI" "NOPE", false⟩ = DecodeResult.fail
    ∧ sound_mode ⟨setData prepare_data "MS" "NOPE", false⟩ = DecodeResult.fail :=
  c8_enum_decode_lazy prepare_data "PWGARBAGE\r" "PW"
    (setData prepare_data "PW" "GARBAGE") (setData prepare_data "SI" "NOPE")
    (setData prepare_data "MS" "NOPE") "GARBAGE" "NOPE" "NOPE"
    (by decide) (by decide) (by decide) (by decide) (by decide) (by decide) (by decide)

/-- Claim C5: at end-of-stream, command issuance raises
`DisconnectedError` before writing anything, so every public operation
fails with it (for `refresh` once the guard is free), and a wait that
runs out of lines on a closed or dropped connection ends in
`DisconnectedError`, never a timeout. -/
theorem c5_disconnected_everywhere (st : AvrState) (parts names lines : List String)
    (e : StreamEnd) (mute : Bool) (level : Int) (src : InputSource) (mode : SurroundMode)
    (hr : st.reading = false) (he : e = StreamEnd.eof ∨ e = StreamEnd.connError) :
    send_command true parts = (AvrResult.err AvrErr.disconnected, [])
    ∧ turn_on st true lines e = (AvrResult.err AvrErr.disconnected, st, [], lines)
    ∧ turn_off st true lines e = (AvrResult.err AvrErr.disconnected, st, [], lines)
    ∧ mute_volume st mute true lines e = (AvrResult.err AvrErr.disconnected, st, [], lines)
    ∧ set_volume_level st level true lines e = (AvrResult.err AvrErr.disconnected, st, [], lines)
    ∧ volume_level_up st true lines e = (AvrResult.err AvrErr.disconnected, st, [], lines)
    ∧ volume_level_down st true lines e = (AvrResult.err AvrErr.disconnected, st, [], lines)
    ∧ select_source st src true lines e = (AvrResult.err AvrErr.disconnected, st, [], lines)
    ∧ select_sound_mode st mode true lines e = (AvrResult.err AvrErr.disconnected, st, [], lines)
    ∧ refresh st true lines e = (AvrResult.err AvrErr.disconnected, st, [], lines)
    ∧ ((wait_for_response_with_timeout st names lines e).1 = WaitOutcome.completed
        ∨ (wait_for_response_with_timeout st names lines e).1 = WaitOutcome.disconnected)
    ∧ (wait_for_response_with_timeout st names [] e).1 = WaitOutcome.disconnected := by
  refine ⟨rfl, rfl, rfl, rfl, rfl, rfl, rfl, rfl, rfl, ?_, ?_, ?_⟩
  · rw [refresh, if_neg (by simp [hr])]
    rfl
  · rw [wait_for_response_with_timeout, if_neg (by simp [hr])]
    exact wait_loop_closed_end lines names st.data e he
  · rw [wait_for_response_with_timeout, if_neg (by simp [hr])]
    rcases he with h | h <;> subst h <;> rfl

/-- Claim C5 witness: every operation invoked at end-of-stream fails with
the disconnection error and writes nothing, and an exhausted wait on an
ended stream reports disconnection. -/
theorem c5_disconnected_everywhere_witness :
    send_command true ["PW", "ON"] = (AvrResult.err AvrErr.disconnected, [])
    ∧ turn_on ⟨prepare_data, false⟩ true [] StreamEnd.eof
        = (AvrResult.err AvrErr.disconnected, ⟨prepare_data, false⟩, [], [])
    ∧ turn_off ⟨prepare_data, false⟩ true [] StreamEnd.eof
        = (AvrResult.err AvrErr.disconnected, ⟨prepare_data, false⟩, [], [])
    ∧ mute_volume ⟨prepare_data, false⟩ true true [] StreamEnd.eof
        = (AvrResult.err AvrErr.disconnected, ⟨prepare_data, false⟩, [], [])
    ∧ set_volume_level ⟨prepare_data, false⟩ 5 true [] StreamEnd.eof
        = (AvrResult.err AvrErr.disconnected, ⟨prepare_data, false⟩, [], [])
    ∧ volume_level_up ⟨prepare_data, false⟩ true [] StreamEnd.eof
        = (AvrResult.err AvrErr.disconnected, ⟨prepare_data, false⟩, [], [])
    ∧ volume_level_down ⟨prepare_data, false⟩ true [] StreamEnd.eof
        = (AvrResult.err AvrErr.disconnected, ⟨prepare_data, false⟩, [], [])
    ∧ select_source ⟨prepare_data, false⟩ InputSource.DVD true [] StreamEnd.eof
        = (AvrResult.err AvrErr.disconnected, ⟨prepare_data, false⟩, [], [])
    ∧ select_sound_mode ⟨prepare_data, false⟩ SurroundMode.Stereo true [] StreamEnd.eof
        = (AvrResult.err AvrErr.disconnected, ⟨prepare_data, false⟩, [], [])
    ∧ refresh ⟨prepare_data, false⟩ true [] StreamEnd.eof
        = (AvrResult.err AvrErr.disconnected, ⟨prepare_data, false⟩, [], [])
    ∧ ((wait_for_response_with_timeout ⟨prepare_data, false⟩ ["PW"] [] StreamEnd.eof).1
          = WaitOutcome.completed
        ∨ (wait_for_response_with_timeout ⟨prepare_data, false⟩ ["PW"] [] StreamEnd.eof).1
          = WaitOutcome.disconnected)
    ∧ (wait_for_response_with_timeout ⟨prepare_data, false⟩ ["PW"] [] StreamEnd.eof).1
        = WaitOutcome.disconnected :=
  c5_disconnected_everywhere ⟨prepare_data, false⟩ ["PW", "ON"] ["PW"] [] StreamEnd.eof
    true 5 InputSource.DVD SurroundMode.Stereo rfl (Or.inl rfl)

/-- Claim C6: a timed-out operation reports the timeout error, which is a
different error from disconnection, and the device state cache is not
rolled back: a `refresh` that times out leaves the cache exactly as the
lines processed before the abort left it (so fields filled by earlier
queries of the same refresh stay filled), and any populated entry stays
populated under further processing. -/
theorem c6_timeout_no_rollback (st : AvrState) (atEof : Bool) (lines : List String)
    (e : StreamEnd) (d d3 : Data) (lines2 pending3 : List String) (k : String)
    (ht : (refresh st atEof lines e).1 = AvrResult.err AvrErr.timedOut)
    (hk : dictGet d k ≠ none) :
    AvrErr.timedOut ≠ AvrErr.disconnected
    ∧ (wait_loop pending3 d3 [] StreamEnd.stillOpen).1 = WaitOutcome.timedOut
    ∧ (refresh st atEof lines e).2.1.data = spec_process_all st.data lines
    ∧ dictGet (spec_process_all d lines2) k ≠ none := by
  refine ⟨by simp, rfl, ?_, spec_process_all_populated lines2 d k hk⟩
  by_cases hrd : st.reading
  · rw [refresh, if_pos hrd] at ht
    simp at ht
  · rw [refresh, if_neg hrd] at ht ⊢
    exact refresh_loop_timedOut DATA_DEFS st atEof lines e ht

/-- Claim C6 witness: a refresh answered only for its first two queries
times out, and the power and mute entries populated before the timeout
remain populated. -/
theorem c6_timeout_no_rollback_witness :
    AvrErr.timedOut ≠ AvrErr.disconnected
    ∧ (wait_loop ["MV", "MVMAX"] prepare_data [] StreamEnd.stillOpen).1 = WaitOutcome.timedOut
    ∧ (refresh ⟨prepare_data, false⟩ false ["PWON\r", "MUOFF\r"] StreamEnd.stillOpen).2.1.data
        = spec_process_all prepare_data ["PWON\r", "MUOFF\r"]
    ∧ dictGet (spec_process_all (setData prepare_data "PW" "ON") ["MUOFF\r"]) "PW" ≠ none :=
  c6_timeout_no_rollback ⟨prepare_data, false⟩ false ["PWON\r", "MUOFF\r"]
    StreamEnd.stillOpen (setData prepare_data "PW" "ON") prepare_data ["MUOFF\r"]
    ["MV", "MVMAX"] "PW" (by decide) (by decide)

end AvrModel




